import Mathlib

/-!
Shallow embedding of the tool-call orchestration / streaming-accumulation
loop of the Novita-CollabHub examples, covering:

* `examples/agent-runtime/agentic-frameworks/autogen/app.py`
  (`_handle_streaming`, `_handle_non_streaming`, `agent_invocation`);
* `examples/agent-runtime/agentic-frameworks/langgraph/app.py`
  (`_handle_streaming`, `_handle_non_streaming`, `agent_invocation`);
* `examples/sandbox/sandbox_eda.py` (`SandboxEDA.eda_chat` and its tool
  dispatch);
* `examples/sandbox-chat-agent/gradio_chat.py` (`chat_fn` and the tool
  functions);
* `examples/sandbox-code-assistant/main.py` (`websocket_endpoint`,
  `make_tool_handlers`).

External collaborators (the OpenAI-compatible model client, the remote
sandbox service, the LangGraph graph, the AutoGen agent) are modelled as
explicit inputs: a model behaviour is a function from the current message
list to a response, a stream delivered by a framework is the list of items
it yielded plus an optional exception raised afterwards, and sandbox file
or command operations are functions that either return a value or raise
(an `Except String` result, the `String` being `str(e)` of the raised
exception).  Python dicts used as wire objects are modelled as association
lists of key/value pairs so that their exact key sets are observable.
-/

namespace CollabHub

/-- A message of the sandbox-scoped `conversation_history` list kept by the
autogen and langgraph apps: a dict `{"role": ..., "content": ...}`. -/
structure Msg where
  role : String
  content : String
deriving DecidableEq, Repr

/-- A streamed wire event, i.e. one yielded Python dict, as an association
list of its keys and values. -/
abbrev Event := List (String × String)

/-- The dict `{"chunk": s, "type": "content"}` yielded for a content chunk. -/
def contentEvent (s : String) : Event := [("chunk", s), ("type", "content")]

/-- The dict `{"chunk": "", "type": "end"}` yielded as the end marker. -/
def endEvent : Event := [("chunk", ""), ("type", "end")]

/-- The dict `{"error": e, "type": "error"}` yielded when the stream raised. -/
def errorEvent (e : String) : Event := [("error", e), ("type", "error")]

/-- The value of an event's `type` key. -/
def eventType (e : Event) : Option String :=
  (e.find? (fun p => p.1 = "type")).map (fun p => p.2)

/-- The value of an event's `chunk` key. -/
def eventChunk (e : Event) : Option String :=
  (e.find? (fun p => p.1 = "chunk")).map (fun p => p.2)

/-- The key list of an event dict. -/
def eventKeys (e : Event) : List String := e.map (fun p => p.1)

/-- The `chunk` payloads of the `content`-type events of a stream, in order. -/
def eventChunks (evs : List Event) : List String :=
  evs.filterMap (fun e => if eventType e = some "content" then eventChunk e else none)

/-- An event is terminal when its `type` is `end` or `error`. -/
def isTerminalEvent (e : Event) : Bool :=
  eventType e == some "end" || eventType e == some "error"

/-! ### AutoGen app (`agentic-frameworks/autogen/app.py`) -/

/-- A Python value observed by duck typing: either a string or some
non-string object (`None`, a list of tool-call records, ...). -/
inductive PyVal
  | str (s : String)
  | other
deriving DecidableEq, Repr

/-- One item yielded by `agent.on_messages_stream`.  `chat_message_content`
is `some v` when `hasattr(message, 'chat_message') and
hasattr(message.chat_message, 'content')` holds with value `v`; `content` is
`some v` when `hasattr(message, 'content')` holds with value `v`. -/
structure AgStreamItem where
  chat_message_content : Option PyVal
  content : Option PyVal
deriving DecidableEq, Repr

/-- The behaviour of one consumption of `agent.on_messages_stream`: the
items it yielded, then optionally the `str(e)` of an exception it raised. -/
structure AgStream where
  items : List AgStreamItem
  raised : Option String
deriving DecidableEq, Repr

/-- Content extraction of `_handle_streaming`: prefer
`message.chat_message.content`, else `message.content`. -/
def agExtract (m : AgStreamItem) : Option PyVal :=
  match m.chat_message_content with
  | some v => some v
  | none => m.content

/-- The filter `if content and isinstance(content, str) and content.strip():`
of `_handle_streaming`; returns the chunk that is both emitted and
accumulated, or `none` when the item is skipped.  `content.strip()` is
truthy exactly when the string contains a non-whitespace character. -/
def agKeep (m : AgStreamItem) : Option String :=
  match agExtract m with
  | some (PyVal.str s) =>
    if s ≠ "" ∧ s.data.any (fun c => !c.isWhitespace) then some s else none
  | some PyVal.other => none
  | none => none

/-- Embedding of autogen `_handle_streaming`: given the availability flag,
the stream behaviour and the current `conversation_history`, produce the
yielded events and the updated history. -/
def agHandleStreaming (available : Bool) (stream : AgStream) (history : List Msg) :
    List Event × List Msg :=
  if available = false then
    ([contentEvent "(Simulated response) AutoGen not installed", endEvent], history)
  else
    let kept := stream.items.filterMap agKeep
    let events := kept.map contentEvent
    match stream.raised with
    | some e => (events ++ [errorEvent e], history)
    | none =>
      let accumulated_content := String.join kept
      let history' :=
        if accumulated_content ≠ "" then
          history ++ [Msg.mk "assistant" accumulated_content]
        else history
      (events ++ [endEvent], history')

/-- The `chat_message` attribute of an autogen response: optional `content`
attribute and the `str()` rendering. -/
structure AgChatMsg where
  content : Option String
  strRepr : String
deriving DecidableEq, Repr

/-- An autogen `on_messages` response object: optional `chat_message`
attribute and the `str()` rendering.  A missing attribute is `none`. -/
structure AgResponse where
  chat_message : Option AgChatMsg
  strRepr : String
deriving DecidableEq, Repr

/-- A raised Python exception: `str(e)` and `type(e).__name__`. -/
structure PyExc where
  msg : String
  tyName : String
deriving DecidableEq, Repr

/-- A non-streaming return value: `{"result": s}` or
`{"error": msg, "error_type": tyName}`. -/
inductive Envelope
  | result (s : String)
  | error (msg tyName : String)
deriving DecidableEq, Repr

/-- The response-content extraction of autogen `_handle_non_streaming`
(`response_message` may be falsy, may lack `chat_message`, and the
`chat_message` may lack `content`). -/
def agExtractResponse : Option AgResponse → String
  | none => "No response generated"
  | some r =>
    match r.chat_message with
    | some cm =>
      match cm.content with
      | some c => c
      | none => cm.strRepr
    | none => r.strRepr

/-- Embedding of autogen `_handle_non_streaming`: the model invocation
either raised or returned an (optional) response object. -/
def agHandleNonStreaming (available : Bool)
    (outcome : Except PyExc (Option AgResponse)) (history : List Msg) :
    Envelope × List Msg :=
  if available = false then
    (Envelope.result
      "(Simulated response) AutoGen not installed, please install for full functionality.",
     history)
  else
    match outcome with
    | Except.error e =>
      (Envelope.error ("Agent execution failed: " ++ e.msg) e.tyName, history)
    | Except.ok resp =>
      let response := agExtractResponse resp
      (Envelope.result response, history ++ [Msg.mk "assistant" response])

/-- The request dict of the entrypoint: `request.get("prompt", "Hello!")`
and `request.get("streaming", False)`. -/
structure AgRequest where
  prompt : Option String
  streaming : Bool
deriving DecidableEq, Repr

/-- What one entrypoint invocation delivers to its caller: a completed
envelope, or the fully-consumed stream of events. -/
inductive TurnResult
  | envelope (e : Envelope)
  | streamed (events : List Event)
deriving DecidableEq, Repr

/-- The events of a streamed turn result. -/
def turnEvents : TurnResult → List Event
  | TurnResult.envelope _ => []
  | TurnResult.streamed evs => evs

/-- A turn "does not end in an error": a non-streaming turn returned a
`result` envelope; a streaming turn's last event is the `end` marker. -/
def turnSuccessful : TurnResult → Bool
  | TurnResult.envelope (Envelope.result _) => true
  | TurnResult.envelope (Envelope.error _ _) => false
  | TurnResult.streamed evs =>
    match evs.getLast? with
    | some e => eventType e == some "end"
    | none => false

/-- Embedding of autogen `agent_invocation` plus the consumption of the
generator it may return: append the user message, then dispatch on the
`streaming` flag.  `streamBehavior` and `completeBehavior` describe what
the framework would do in each mode. -/
def agTurn (available : Bool) (request : AgRequest)
    (streamBehavior : AgStream) (completeBehavior : Except PyExc (Option AgResponse))
    (history : List Msg) : List Msg × TurnResult :=
  let prompt := request.prompt.getD "Hello!"
  let history1 := history ++ [Msg.mk "user" prompt]
  if request.streaming then
    let r := agHandleStreaming available streamBehavior history1
    (r.2, TurnResult.streamed r.1)
  else
    let r := agHandleNonStreaming available completeBehavior history1
    (r.2, TurnResult.envelope r.1)

/-- The inputs of one autogen turn: the request and the framework behaviour
for whichever mode the request selects. -/
structure AgTurnSpec where
  request : AgRequest
  streamBehavior : AgStream
  completeBehavior : Except PyExc (Option AgResponse)

/-- Run a sequence of autogen turns against a shared history, collecting
each turn's delivered result. -/
def agRunTurns (available : Bool) : List AgTurnSpec → List Msg → List Msg × List TurnResult
  | [], h => (h, [])
  | t :: ts, h =>
    let r := agTurn available t.request t.streamBehavior t.completeBehavior h
    let rest := agRunTurns available ts r.1
    (rest.1, r.2 :: rest.2)

/-! ### LangGraph app (`agentic-frameworks/langgraph/app.py`) -/

/-- One `chunk` of `graph.stream(..., stream_mode="messages")`: `some s`
when the chunk has a `content` attribute with (string) value `s`. -/
structure LgStreamItem where
  content : Option String
deriving DecidableEq, Repr

/-- The behaviour of one consumption of `graph.stream`: the chunks it
yielded, then optionally the `str(e)` of an exception it raised. -/
structure LgStream where
  items : List LgStreamItem
  raised : Option String
deriving DecidableEq, Repr

/-- The filter `if hasattr(chunk, 'content') and chunk.content:` of the
langgraph `_handle_streaming`. -/
def lgKeep (c : LgStreamItem) : Option String :=
  match c.content with
  | some s => if s ≠ "" then some s else none
  | none => none

/-- Embedding of langgraph `_handle_streaming`. -/
def lgHandleStreaming (stream : LgStream) (history : List Msg) :
    List Event × List Msg :=
  let kept := stream.items.filterMap lgKeep
  let events := kept.map contentEvent
  match stream.raised with
  | some e => (events ++ [errorEvent e], history)
  | none =>
    let accumulated_content := String.join kept
    let history' :=
      if accumulated_content ≠ "" then
        history ++ [Msg.mk "assistant" accumulated_content]
      else history
    (events ++ [endEvent], history')

/-- A message of the langgraph graph output list: `some s` when it has a
`content` attribute with (string) value `s`, `none` when it lacks one. -/
structure LgGraphMsg where
  content : Option String
deriving DecidableEq, Repr

/-- The fixed fallback text of langgraph `_handle_non_streaming`. -/
def lgDefaultResponse : String :=
  "I\x27ve completed the search and gathered information. The search was successful."

/-- The `result_content` computation of langgraph `_handle_non_streaming`
for the graph output's last message. -/
def lgExtractContent (last_message : LgGraphMsg) : String :=
  match last_message.content with
  | some c => if c ≠ "" then c else lgDefaultResponse
  | none => lgDefaultResponse

/-- Embedding of langgraph `_handle_non_streaming`: `graph.invoke` either
raised or returned a message list (`tmp_output['messages']`).  Indexing
`[-1]` into an empty list raises `IndexError`, which the surrounding
`except` turns into an error envelope like any other graph failure. -/
def lgHandleNonStreaming (outcome : Except PyExc (List LgGraphMsg))
    (history : List Msg) : Envelope × List Msg :=
  match outcome with
  | Except.error e =>
    (Envelope.error ("Graph invocation failed: " ++ e.msg) e.tyName, history)
  | Except.ok msgs =>
    match msgs.getLast? with
    | none =>
      (Envelope.error "Graph invocation failed: list index out of range" "IndexError",
       history)
    | some last_message =>
      let result_content := lgExtractContent last_message
      (Envelope.result result_content,
       history ++ [Msg.mk "assistant" result_content])

/-- The request dict of the langgraph entrypoint. -/
structure LgRequest where
  prompt : Option String
  streaming : Bool
deriving DecidableEq, Repr

/-- The default prompt of the langgraph entrypoint. -/
def lgDefaultPrompt : String :=
  "No prompt found in input, please guide customer as to what tools can be used"

/-- Embedding of langgraph `agent_invocation` plus the consumption of the
generator it may return. -/
def lgTurn (request : LgRequest) (streamBehavior : LgStream)
    (invokeBehavior : Except PyExc (List LgGraphMsg)) (history : List Msg) :
    List Msg × TurnResult :=
  let prompt := request.prompt.getD lgDefaultPrompt
  let history1 := history ++ [Msg.mk "user" prompt]
  if request.streaming then
    let r := lgHandleStreaming streamBehavior history1
    (r.2, TurnResult.streamed r.1)
  else
    let r := lgHandleNonStreaming invokeBehavior history1
    (r.2, TurnResult.envelope r.1)

/-! ### Gradio chat agent (`sandbox-chat-agent/gradio_chat.py`) and the
code assistant (`sandbox-code-assistant/main.py`) -/

/-- One entry of a `write_files` argument list. -/
structure SbFile where
  path : String
  data : String
deriving DecidableEq, Repr

/-- The parsed `json.loads(tc.function.arguments)` of a tool call, holding
the fields the four registered tools consume. -/
structure GArgs where
  path : String
  data : String
  files : List SbFile
  command : String
deriving DecidableEq, Repr

/-- A tool call attached to an OpenAI chat-completions assistant message. -/
structure GToolCall where
  id : String
  name : String
  args : GArgs
deriving DecidableEq, Repr

/-- A message of the OpenAI-format `messages` list shared across turns. -/
structure CMsg where
  role : String
  content : Option String
  tool_call_id : Option String
  tool_calls : List GToolCall
deriving DecidableEq, Repr

/-- A `response.choices[0].message` returned by the chat-completions call. -/
structure CResp where
  content : Option String
  tool_calls : List GToolCall
deriving DecidableEq, Repr

/-- The sandbox SDK surface consumed by the tool handlers.  Each operation
either returns its value or raises with message `str(e)`.  `commandsRun`
returns `result.stdout` on success. -/
structure SBox where
  filesRead : String → Except String String
  filesWrite : String → String → Except String Unit
  filesWriteFiles : List SbFile → Except String Unit
  commandsRun : String → Except String String

/-- The guard message of `require_sandbox` in `gradio_chat.py`. -/
def sandboxOffMsg : String := "❌ Sandbox is OFF. Turn it ON to use this feature."

/-- Embedding of `read_file` in `gradio_chat.py` (global `sandbox` may be
`None`). -/
def read_file (sandbox : Option SBox) (path : String) : String :=
  match sandbox with
  | none => sandboxOffMsg
  | some sbx =>
    match sbx.filesRead path with
    | Except.ok content => content
    | Except.error e => "Error reading file: " ++ e

/-- Embedding of `write_file` in `gradio_chat.py`. -/
def write_file (sandbox : Option SBox) (path data : String) : String :=
  match sandbox with
  | none => sandboxOffMsg
  | some sbx =>
    match sbx.filesWrite path data with
    | Except.ok _ => "File created successfully at " ++ path
    | Except.error e => "Error writing file: " ++ e

/-- Embedding of `write_files` in `gradio_chat.py`. -/
def write_files (sandbox : Option SBox) (files : List SbFile) : String :=
  match sandbox with
  | none => sandboxOffMsg
  | some sbx =>
    match sbx.filesWriteFiles files with
    | Except.ok _ => toString files.length ++ " file(s) created successfully"
    | Except.error e => "Error writing multiple files: " ++ e

/-- Embedding of `run_commands` in `gradio_chat.py`. -/
def run_commands (sandbox : Option SBox) (command : String) : String :=
  match sandbox with
  | none => sandboxOffMsg
  | some sbx =>
    match sbx.commandsRun command with
    | Except.ok stdout => stdout
    | Except.error e => "Error running command: " ++ e

/-- The tool dispatch of `chat_fn` in `gradio_chat.py`: the four name
checks, with the fallback `"Unknown tool " ++ name`. -/
def gradioDispatch (sandbox : Option SBox) (tc : GToolCall) : String :=
  if tc.name = "read_file" then read_file sandbox tc.args.path
  else if tc.name = "write_file" then write_file sandbox tc.args.path tc.args.data
  else if tc.name = "write_files" then write_files sandbox tc.args.files
  else if tc.name = "run_commands" then run_commands sandbox tc.args.command
  else "Unknown tool " ++ tc.name

/-- Embedding of `chat_fn` in `gradio_chat.py`.  The chat-completions
client is a function of the message list and of whether the `tools`
schemas were passed (`true` for the first call, `false` for the follow-up).
Returns the updated global `messages` list and the returned content. -/
def chat_fn (sandbox : Option SBox) (client : List CMsg → Bool → CResp)
    (user_message : String) (messages : List CMsg) : List CMsg × Option String :=
  let messages1 := messages ++ [CMsg.mk "user" (some user_message) none []]
  let assistant_msg := client messages1 true
  let messages2 :=
    messages1 ++ [CMsg.mk "assistant" assistant_msg.content none assistant_msg.tool_calls]
  if assistant_msg.tool_calls ≠ [] then
    let messages3 := messages2 ++ assistant_msg.tool_calls.map
      (fun tc => CMsg.mk "tool" (some (gradioDispatch sandbox tc)) (some tc.id) [])
    let final_msg := client messages3 false
    (messages3 ++ [CMsg.mk "assistant" final_msg.content none final_msg.tool_calls],
     final_msg.content)
  else
    (messages2, assistant_msg.content)

/-- Embedding of the `read_file` closure of `make_tool_handlers` in
`sandbox-code-assistant/main.py`. -/
def ws_read_file (sandbox : SBox) (path : String) : String :=
  match sandbox.filesRead path with
  | Except.ok content => content
  | Except.error e => "Error reading file: " ++ e

/-- Embedding of the `write_file` closure of `make_tool_handlers`. -/
def ws_write_file (sandbox : SBox) (path data : String) : String :=
  match sandbox.filesWrite path data with
  | Except.ok _ => "File created successfully at " ++ path
  | Except.error e => "Error writing file: " ++ e

/-- Embedding of the `write_files` closure of `make_tool_handlers`. -/
def ws_write_files (sandbox : SBox) (files : List SbFile) : String :=
  match sandbox.filesWriteFiles files with
  | Except.ok _ => toString files.length ++ " file(s) created successfully"
  | Except.error e => "Error writing multiple files: " ++ e

/-- Embedding of the `run_commands` closure of `make_tool_handlers`. -/
def ws_run_commands (sandbox : SBox) (command : String) : String :=
  match sandbox.commandsRun command with
  | Except.ok stdout => stdout
  | Except.error e => "Error running command: " ++ e

/-- The `if fn_name in tools_exec: ... else:` dispatch of
`websocket_endpoint`, with the fallback `"Error: Unknown tool " ++ name`. -/
def wsDispatch (sandbox : SBox) (tc : GToolCall) : String :=
  if tc.name = "read_file" then ws_read_file sandbox tc.args.path
  else if tc.name = "write_file" then ws_write_file sandbox tc.args.path tc.args.data
  else if tc.name = "write_files" then ws_write_files sandbox tc.args.files
  else if tc.name = "run_commands" then ws_run_commands sandbox tc.args.command
  else "Error: Unknown tool " ++ tc.name

/-- What `websocket_endpoint` sends back for one received message:
`{"reply": ...}` or `{"reply": ..., "tool_output": [...]}`. -/
inductive WsReply
  | simple (reply : Option String)
  | withTools (reply : Option String) (tool_output : List String)
deriving DecidableEq, Repr

/-- Embedding of one iteration of the `while True` receive loop of
`websocket_endpoint`: one user message through at most one tool round. -/
def wsTurn (sandbox : SBox) (client : List CMsg → Bool → CResp)
    (data : String) (messages : List CMsg) : List CMsg × WsReply :=
  let messages1 := messages ++ [CMsg.mk "user" (some data) none []]
  let assistant_msg := client messages1 true
  let messages2 :=
    messages1 ++ [CMsg.mk "assistant" assistant_msg.content none assistant_msg.tool_calls]
  if assistant_msg.tool_calls ≠ [] then
    let results := assistant_msg.tool_calls.map (wsDispatch sandbox)
    let messages3 := messages2 ++ assistant_msg.tool_calls.map
      (fun tc => CMsg.mk "tool" (some (wsDispatch sandbox tc)) (some tc.id) [])
    let final_answer := client messages3 false
    (messages3 ++ [CMsg.mk "assistant" final_answer.content none final_answer.tool_calls],
     WsReply.withTools final_answer.content results)
  else
    (messages2, WsReply.simple assistant_msg.content)

/-! ### Sandbox EDA chat loop (`examples/sandbox/sandbox_eda.py`) -/

/-- The parsed arguments of an EDA tool call, holding the fields the four
registered tools consume. -/
structure EdaToolArgs where
  python_code : String
  command : String
  sandbox_path : String
  path_on_user_sync_folder : String
deriving DecidableEq, Repr

/-- A tool call of an OpenAI chat-completions response in `eda_chat`. -/
structure EdaToolCall where
  id : String
  name : String
  args : EdaToolArgs
deriving DecidableEq, Repr

/-- A `response.choices[0].message` in `eda_chat`: its content and its
(possibly empty) tool-call list. -/
structure EdaResp where
  content : String
  tool_calls : List EdaToolCall
deriving DecidableEq, Repr

/-- Message content in `eda_chat`'s `messages` list: a plain string, or the
list-of-text-parts form used for `run_python_code` results. -/
inductive EdaContent
  | str (s : String)
  | parts (l : List String)
deriving DecidableEq, Repr

/-- A message of `eda_chat`'s `messages` list. -/
structure EdaMsg where
  role : String
  content : EdaContent
  name : Option String
  tool_call_id : Option String
  tool_calls : List EdaToolCall
deriving DecidableEq, Repr

/-- Count the messages with a given role. -/
def countRole (r : String) (msgs : List EdaMsg) : Nat :=
  msgs.countP (fun m => m.role == r)

/-- One result object of a sandbox code execution: its optional `png`
payload (`some` when truthy) and its external `str()` rendering. -/
structure ExecResult where
  png : Option String
  strRepr : String
deriving DecidableEq, Repr

/-- A sandbox `run_code` execution object: results plus the external
renderings of `execution.logs` and `execution.error`. -/
structure Execution where
  results : List ExecResult
  logsRepr : String
  errorRepr : String
deriving DecidableEq, Repr

/-- A sandbox `commands.run` result. -/
structure CmdOut where
  stdout : String
  stderr : String
  exit_code : Int
  errorRepr : String
deriving DecidableEq, Repr

/-- The remote-sandbox surface consumed by `SandboxEDA`.  `runCode` and
`commandsRun` model `self.sandbox.run_code` and `self.sandbox.commands.run`
(external calls that may raise).  `syncWithUser` and `deleteFromSync`
model the methods `sync_with_user` and `delete_from_user_sync_folder`,
whose bodies are external file-system work wrapped in a `try/except` that
always returns a string, so they are modelled as total string-valued
functions of their arguments. -/
structure SandboxOps where
  runCode : String → Except String Execution
  commandsRun : String → Except String CmdOut
  syncWithUser : String → String → String
  deleteFromSync : String → String

/-- Render a Python list of already-rendered items. -/
def pyListRepr (l : List String) : String :=
  "[" ++ String.intercalate ", " l ++ "]"

/-- The dict built by `run_python_code`: the base64 images and the
rendering of its `other_outputs` sub-dict. -/
structure CodeResult where
  image_outputs : List String
  other_outputs_repr : String
deriving DecidableEq, Repr

/-- Embedding of `SandboxEDA.run_python_code`: run the code in the sandbox
(which may raise) and collect png and non-png outputs.  The
`other_outputs_repr` field renders the `other_outputs` dict the way the
f-string in `eda_chat` displays it. -/
def run_python_code (sbx : SandboxOps) (python_code : String) :
    Except String CodeResult :=
  match sbx.runCode python_code with
  | Except.error e => Except.error e
  | Except.ok execution =>
    Except.ok
      { image_outputs := execution.results.filterMap (fun r => r.png)
        other_outputs_repr :=
          "\x7b\x27outputs\x27: " ++
            pyListRepr ((execution.results.filter (fun r => r.png = none)).map
              (fun r => r.strRepr)) ++
          ", \x27logs\x27: " ++ execution.logsRepr ++
          ", \x27error\x27: " ++ execution.errorRepr ++ "\x7d" }

/-- The text placed in the `run_python_code` tool message: prefixed with
the images notice when any image was produced. -/
def pythonToolText (cr : CodeResult) : String :=
  if cr.image_outputs ≠ [] then
    "THE IMAGES HAS ALREADY BEEN SHOW TO THE USER ON THE TERMINAL AND SAVED TO TEMP FILES eg temp-\x7btimestamp\x7d.png on the user\x27s computer in ./temp_image_output dir, THE OTHER OUTPUTS ARE BELOW\n"
      ++ cr.other_outputs_repr
  else cr.other_outputs_repr

/-- The dict returned by `SandboxEDA.run_on_command_line`. -/
structure CommandResult where
  output : Option CmdOut
  execution_error : Option String
deriving DecidableEq, Repr

/-- Embedding of `SandboxEDA.run_on_command_line`: the external command
call is wrapped in `try/except`, so a raise becomes an
`execution error` entry instead of propagating. -/
def run_on_command_line (sbx : SandboxOps) (command : String) : CommandResult :=
  match sbx.commandsRun command with
  | Except.ok result => CommandResult.mk (some result) none
  | Except.error e => CommandResult.mk none (some e)

/-- Render a Python string literal. -/
def pyStrRepr (s : String) : String := "\x27" ++ s ++ "\x27"

/-- Render the `run_on_command_line` result dict the way `str()` displays
it when placed in the tool message. -/
def reprCommandResult (cr : CommandResult) : String :=
  "\x7b\x27output\x27: " ++
    (match cr.output with
     | some o =>
       "\x7b\x27stdout\x27: " ++ pyStrRepr o.stdout ++
       ", \x27stderr\x27: " ++ pyStrRepr o.stderr ++
       ", \x27exit_code\x27: " ++ toString o.exit_code ++
       ", \x27error\x27: " ++ o.errorRepr ++ "\x7d"
     | none => "None") ++
  ", \x27execution error\x27: " ++
    (match cr.execution_error with
     | some e => pyStrRepr e
     | none => "None") ++ "\x7d"

/-- The tool-call dispatch of `eda_chat`: the four known names each append
a `tool` message; an unknown name raises
`ValueError(f"Unknown Function Call: {name}")`, modelled as `Except.error`.
A raise from the external `run_code` call also propagates (it is not
caught in `run_python_code`). -/
def edaExecToolCall (sbx : SandboxOps) (tc : EdaToolCall) : Except String EdaMsg :=
  if tc.name = "run_python_code" then
    match run_python_code sbx tc.args.python_code with
    | Except.error e => Except.error e
    | Except.ok code_result =>
      Except.ok
        (EdaMsg.mk "tool" (EdaContent.parts [pythonToolText code_result])
          (some tc.name) (some tc.id) [])
  else if tc.name = "run_on_command_line" then
    Except.ok
      (EdaMsg.mk "tool"
        (EdaContent.str (reprCommandResult (run_on_command_line sbx tc.args.command)))
        (some tc.name) (some tc.id) [])
  else if tc.name = "sync_with_user" then
    Except.ok
      (EdaMsg.mk "tool"
        (EdaContent.str (sbx.syncWithUser tc.args.sandbox_path
          tc.args.path_on_user_sync_folder))
        (some tc.name) (some tc.id) [])
  else if tc.name = "delete_from_user_sync_folder" then
    Except.ok
      (EdaMsg.mk "tool"
        (EdaContent.str (sbx.deleteFromSync tc.args.path_on_user_sync_folder))
        (some tc.name) (some tc.id) [])
  else
    Except.error ("Unknown Function Call: " ++ tc.name)

/-- Execute the requested tool calls in order, appending each `tool`
message.  A raise stops execution; the messages appended so far are
retained (the Python list was mutated in place). -/
def edaExecToolCalls (sbx : SandboxOps) :
    List EdaToolCall → List EdaMsg → List EdaMsg × Option String
  | [], msgs => (msgs, none)
  | tc :: rest, msgs =>
    match edaExecToolCall sbx tc with
    | Except.error e => (msgs, some e)
    | Except.ok m => edaExecToolCalls sbx rest (msgs ++ [m])

/-- The message of the `raise Exception(...)` guarding the round limit. -/
def edaRoundLimitMsg (limit : Nat) : String :=
  "Consecutive tool calls from the Agent must not exceed " ++ toString limit ++ "."

/-- The `for i in range(limit + 1)` loop of `eda_chat`, with `fuel` the
number of remaining indices below `limit`: when the fuel is exhausted
(`i == limit`) the round-limit exception is raised before any model call.
Each round is one model call; tool-call responses append the assistant
message and the tool messages and loop; a plain response appends the
assistant message and breaks. -/
def edaLoop (sbx : SandboxOps) (model : List EdaMsg → EdaResp) (limit : Nat) :
    Nat → List EdaMsg → List EdaMsg × Option String
  | 0, msgs => (msgs, some (edaRoundLimitMsg limit))
  | fuel + 1, msgs =>
    let resp := model msgs
    if resp.tool_calls ≠ [] then
      let msgs1 := msgs ++ [EdaMsg.mk "assistant" (EdaContent.str resp.content)
        none none resp.tool_calls]
      let step := edaExecToolCalls sbx resp.tool_calls msgs1
      match step.2 with
      | some e => (step.1, some e)
      | none => edaLoop sbx model limit fuel step.1
    else
      (msgs ++ [EdaMsg.mk "assistant" (EdaContent.str resp.content) none none []], none)

/-- One user turn of `eda_chat`: append the user message, then run the
bounded round loop with `max_consecutive_function_calls_allowed` fuel. -/
def edaTurn (sbx : SandboxOps) (model : List EdaMsg → EdaResp) (limit : Nat)
    (user_input : String) (msgs : List EdaMsg) : List EdaMsg × Option String :=
  edaLoop sbx model limit limit
    (msgs ++ [EdaMsg.mk "user" (EdaContent.str user_input) none none []])

/-- Python `str.lower()`. -/
def pyLower (s : String) : String := String.mk (s.data.map Char.toLower)

/-- Python `str.strip()`: drop leading and trailing whitespace. -/
def pyStrip (s : String) : String :=
  String.mk (((s.data.dropWhile Char.isWhitespace).reverse.dropWhile
    Char.isWhitespace).reverse)

/-- The `while True` session loop of `eda_chat` over a list of user
inputs: `user_input.lower().strip() == "quit()"` breaks; an exception
raised by a turn propagates out of the loop, ending the whole session with
the remaining inputs unprocessed. -/
def edaSession (sbx : SandboxOps) (model : List EdaMsg → EdaResp) (limit : Nat) :
    List String → List EdaMsg → List EdaMsg × Option String
  | [], msgs => (msgs, none)
  | input :: rest, msgs =>
    if pyStrip (pyLower input) = "quit()" then (msgs, none)
    else
      let step := edaTurn sbx model limit input msgs
      match step.2 with
      | some e => (step.1, some e)
      | none => edaSession sbx model limit rest step.1

/-! ### Derived turn descriptions and test stubs -/

/-- The messages a successful autogen turn appends to the shared history:
the user message, then the assistant message when one is committed (a
non-streaming success always commits one; a streaming success commits one
exactly when the accumulated content is non-empty).  The `Except.error`
branch is never reached for a successful turn. -/
def agTurnAppends (t : AgTurnSpec) : List Msg :=
  Msg.mk "user" (t.request.prompt.getD "Hello!") ::
    (if t.request.streaming then
      (let acc := String.join (t.streamBehavior.items.filterMap agKeep)
       if acc ≠ "" then [Msg.mk "assistant" acc] else [])
     else
      (match t.completeBehavior with
       | Except.ok resp => [Msg.mk "assistant" (agExtractResponse resp)]
       | Except.error _ => []))

/-- The number of messages a successful autogen turn appends. -/
def agTurnGain (t : AgTurnSpec) : Nat := (agTurnAppends t).length

/-- A turn specification describes a successful turn: a streaming turn's
stream does not raise; a non-streaming turn's model invocation returns. -/
def agSpecSuccessful (t : AgTurnSpec) : Prop :=
  (t.request.streaming = true → t.streamBehavior.raised = none)
  ∧ (t.request.streaming = false → ∃ r, t.completeBehavior = Except.ok r)

/-- A sandbox stub whose every operation raises with message `m`. -/
def failingSBox (m : String) : SBox :=
  SBox.mk (fun _ => Except.error m) (fun _ _ => Except.error m)
    (fun _ => Except.error m) (fun _ => Except.error m)

/-- A chat-completions stub that requests exactly the tool call `tc` on
the tools-bearing first call and answers `ans` on the follow-up call. -/
def oneToolClient (tc : GToolCall) (ans : String) : List CMsg → Bool → CResp :=
  fun _ withTools => if withTools then CResp.mk none [tc] else CResp.mk (some ans) []

/-- A chat-completions stub that never requests tools and answers `ans`. -/
def noToolClient (ans : String) : List CMsg → Bool → CResp :=
  fun _ _ => CResp.mk (some ans) []

/-- An EDA sandbox stub whose operations all succeed. -/
def sbxOkStub : SandboxOps :=
  SandboxOps.mk (fun _ => Except.ok (Execution.mk [] "[]" "None"))
    (fun _ => Except.ok (CmdOut.mk "" "" 0 "None"))
    (fun _ _ => "Sync Successful") (fun _ => "Deletion Successful")

/-- A known-tool call used by the EDA stubs. -/
def cmdToolCallStub : EdaToolCall :=
  EdaToolCall.mk "call_1" "run_on_command_line" (EdaToolArgs.mk "" "ls" "" "")

/-- An EDA model stub that requests `run_on_command_line` on every round. -/
def alwaysToolModel : List EdaMsg → EdaResp :=
  fun _ => EdaResp.mk "" [cmdToolCallStub]

/-- An EDA model stub that requests the unregistered tool name
`does_not_exist` on its first round. -/
def unknownToolModel : List EdaMsg → EdaResp :=
  fun _ => EdaResp.mk "" [EdaToolCall.mk "call_1" "does_not_exist" (EdaToolArgs.mk "" "" "" "")]

/-- Two successful autogen turns: a non-streaming one answering `a1`, then
a streaming one yielding `Hel` and `lo`. -/
def agDemoTurns : List AgTurnSpec :=
  [AgTurnSpec.mk (AgRequest.mk (some "q1") false) (AgStream.mk [] none)
     (Except.ok (some (AgResponse.mk (some (AgChatMsg.mk (some "a1") "a1")) "resp"))),
   AgTurnSpec.mk (AgRequest.mk (some "q2") true)
     (AgStream.mk [AgStreamItem.mk none (some (PyVal.str "Hel")),
        AgStreamItem.mk none (some (PyVal.str "lo"))] none)
     (Except.ok none)]

/-! ### Shared lemmas about the wire events -/

theorem eventType_contentEvent (s : String) : eventType (contentEvent s) = some "content" := rfl

theorem eventChunk_contentEvent (s : String) : eventChunk (contentEvent s) = some s := rfl

theorem eventType_endEvent : eventType endEvent = some "end" := rfl

theorem eventType_errorEvent (m : String) : eventType (errorEvent m) = some "error" := rfl

theorem eventChunks_map_contentEvent (kept : List String) :
    eventChunks (kept.map contentEvent) = kept := by
  unfold eventChunks
  rw [List.filterMap_map]
  have hfun : (fun e => if eventType e = some "content" then eventChunk e else none) ∘ contentEvent
      = fun s => some s := by
    funext s
    simp [Function.comp, eventType_contentEvent, eventChunk_contentEvent]
  rw [hfun, List.filterMap_some]

theorem eventChunks_append (a b : List Event) :
    eventChunks (a ++ b) = eventChunks a ++ eventChunks b := by
  unfold eventChunks
  exact List.filterMap_append a b _

theorem eventChunks_endEvent : eventChunks [endEvent] = [] := rfl

theorem eventChunks_errorEvent (m : String) : eventChunks [errorEvent m] = [] := rfl

theorem eventChunks_concat_terminal (kept : List String) :
    eventChunks (kept.map contentEvent ++ [endEvent]) = kept := by
  rw [eventChunks_append, eventChunks_map_contentEvent, eventChunks_endEvent,
    List.append_nil]

theorem agKeep_ne_empty {m : AgStreamItem} {s : String} (h : agKeep m = some s) :
    s ≠ "" := by
  unfold agKeep at h
  cases hx : agExtract m with
  | none => rw [hx] at h; cases h
  | some v =>
    rw [hx] at h
    cases v with
    | other => cases h
    | str t =>
      change (if t ≠ "" ∧ t.data.any (fun c => !c.isWhitespace) then some t else none)
        = some s at h
      by_cases hc : t ≠ "" ∧ t.data.any (fun c => !c.isWhitespace)
      · rw [if_pos hc] at h
        cases h
        exact hc.1
      · rw [if_neg hc] at h; cases h

theorem lgKeep_ne_empty {c : LgStreamItem} {s : String} (h : lgKeep c = some s) :
    s ≠ "" := by
  unfold lgKeep at h
  cases hx : c.content with
  | none => rw [hx] at h; cases h
  | some t =>
    rw [hx] at h
    change (if t ≠ "" then some t else none) = some s at h
    by_cases hc : t ≠ ""
    · rw [if_pos hc] at h
      cases h
      exact hc
    · rw [if_neg hc] at h; cases h

theorem agHandleStreaming_true_none (items : List AgStreamItem) (h : List Msg) :
    agHandleStreaming true (AgStream.mk items none) h =
      ((items.filterMap agKeep).map contentEvent ++ [endEvent],
       if String.join (items.filterMap agKeep) ≠ "" then
         h ++ [Msg.mk "assistant" (String.join (items.filterMap agKeep))]
       else h) := by
  simp [agHandleStreaming]

theorem agHandleStreaming_true_some (items : List AgStreamItem) (e : String)
    (h : List Msg) :
    agHandleStreaming true (AgStream.mk items (some e)) h =
      ((items.filterMap agKeep).map contentEvent ++ [errorEvent e], h) := by
  simp [agHandleStreaming]

theorem lgHandleStreaming_none (items : List LgStreamItem) (h : List Msg) :
    lgHandleStreaming (LgStream.mk items none) h =
      ((items.filterMap lgKeep).map contentEvent ++ [endEvent],
       if String.join (items.filterMap lgKeep) ≠ "" then
         h ++ [Msg.mk "assistant" (String.join (items.filterMap lgKeep))]
       else h) := by
  simp [lgHandleStreaming]

theorem lgHandleStreaming_some (items : List LgStreamItem) (e : String)
    (h : List Msg) :
    lgHandleStreaming (LgStream.mk items (some e)) h =
      ((items.filterMap lgKeep).map contentEvent ++ [errorEvent e], h) := by
  simp [lgHandleStreaming]

/-! ### Claim theorems -/

/-- C3 (confirmed).  In streaming mode the assistant message committed to
the shared history is exactly the concatenation, in arrival order, of the
`chunk` payloads of the `content` events the handler emitted, and the
commit happens only when that accumulated string is non-empty: this holds
for the autogen and the langgraph handlers; the `["Hel", "lo"]` stub
yields the three events of the spec and commits `assistant "Hello"`; an
empty stream commits nothing and still emits the `end` event. -/
theorem c3_streaming_accumulation :
    (∀ (items : List AgStreamItem) (h : List Msg),
      (agHandleStreaming true (AgStream.mk items none) h).2 =
        (if String.join (eventChunks (agHandleStreaming true (AgStream.mk items none) h).1) ≠ "" then
          h ++ [Msg.mk "assistant"
            (String.join (eventChunks (agHandleStreaming true (AgStream.mk items none) h).1))]
         else h))
    ∧ (∀ (items : List LgStreamItem) (h : List Msg),
      (lgHandleStreaming (LgStream.mk items none) h).2 =
        (if String.join (eventChunks (lgHandleStreaming (LgStream.mk items none) h).1) ≠ "" then
          h ++ [Msg.mk "assistant"
            (String.join (eventChunks (lgHandleStreaming (LgStream.mk items none) h).1))]
         else h))
    ∧ agHandleStreaming true
        (AgStream.mk [AgStreamItem.mk none (some (PyVal.str "Hel")),
          AgStreamItem.mk none (some (PyVal.str "lo"))] none) []
        = ([contentEvent "Hel", contentEvent "lo", endEvent], [Msg.mk "assistant" "Hello"])
    ∧ (∀ h, agHandleStreaming true (AgStream.mk [] none) h = ([endEvent], h))
    ∧ (∀ h, lgHandleStreaming (LgStream.mk [] none) h = ([endEvent], h)) := by
  refine ⟨?_, ?_, ?_, ?_, ?_⟩
  · intro items h
    rw [agHandleStreaming_true_none]
    simp only [eventChunks_concat_terminal]
  · intro items h
    rw [lgHandleStreaming_none]
    simp only [eventChunks_concat_terminal]
  · decide
  · intro h
    rw [agHandleStreaming_true_none]
    simp [String.join]
  · intro h
    rw [lgHandleStreaming_none]
    simp [String.join]

theorem mem_map_contentEvent_ag {items : List AgStreamItem} {ev : Event}
    (h : ev ∈ (items.filterMap agKeep).map contentEvent) :
    ∃ s, s ≠ "" ∧ ev = contentEvent s := by
  rcases List.mem_map.mp h with ⟨s, hs, rfl⟩
  rcases List.mem_filterMap.mp hs with ⟨a, _, ha⟩
  exact ⟨s, agKeep_ne_empty ha, rfl⟩

theorem mem_map_contentEvent_lg {items : List LgStreamItem} {ev : Event}
    (h : ev ∈ (items.filterMap lgKeep).map contentEvent) :
    ∃ s, s ≠ "" ∧ ev = contentEvent s := by
  rcases List.mem_map.mp h with ⟨s, hs, rfl⟩
  rcases List.mem_filterMap.mp hs with ⟨a, _, ha⟩
  exact ⟨s, lgKeep_ne_empty ha, rfl⟩

theorem countP_terminal_map_contentEvent (kept : List String) :
    (kept.map contentEvent).countP isTerminalEvent = 0 := by
  rw [List.countP_map]
  have hfun : (isTerminalEvent ∘ contentEvent) = fun _ => false := by
    funext s; rfl
  rw [hfun]
  simp

/-- C2 (corrected).  Content and end events are dicts with exactly the two
keys `chunk` and `type`, while error events are dicts with exactly the two
keys `error` and `type`; in every stream produced by either streaming
handler, each non-final event is a `content` event carrying a non-empty
fragment, and the final event is the single terminal event (`end` or
`error`). -/
theorem c2_amended :
    (∀ s, eventKeys (contentEvent s) = ["chunk", "type"])
    ∧ eventKeys endEvent = ["chunk", "type"]
    ∧ (∀ m, eventKeys (errorEvent m) = ["error", "type"])
    ∧ (∀ (available : Bool) (stream : AgStream) (h : List Msg),
        (∀ ev ∈ ((agHandleStreaming available stream h).1).dropLast,
          ∃ s, s ≠ "" ∧ ev = contentEvent s)
        ∧ ((agHandleStreaming available stream h).1.getLast? = some endEvent
           ∨ ∃ m, (agHandleStreaming available stream h).1.getLast? = some (errorEvent m)))
    ∧ (∀ (stream : LgStream) (h : List Msg),
        (∀ ev ∈ ((lgHandleStreaming stream h).1).dropLast,
          ∃ s, s ≠ "" ∧ ev = contentEvent s)
        ∧ ((lgHandleStreaming stream h).1.getLast? = some endEvent
           ∨ ∃ m, (lgHandleStreaming stream h).1.getLast? = some (errorEvent m))) := by
  refine ⟨fun s => rfl, rfl, fun m => rfl, ?_, ?_⟩
  · intro available stream h
    obtain ⟨items, raised⟩ := stream
    cases available with
    | false =>
      constructor
      · intro ev hev
        simp only [agHandleStreaming, List.dropLast] at hev
        simp at hev
        exact ⟨"(Simulated response) AutoGen not installed", by decide, hev⟩
      · left; rfl
    | true =>
      cases raised with
      | some e =>
        rw [agHandleStreaming_true_some]
        constructor
        · intro ev hev
          rw [List.dropLast_concat] at hev
          exact mem_map_contentEvent_ag hev
        · right
          exact ⟨e, List.getLast?_concat _⟩
      | none =>
        rw [agHandleStreaming_true_none]
        constructor
        · intro ev hev
          rw [List.dropLast_concat] at hev
          exact mem_map_contentEvent_ag hev
        · left
          exact List.getLast?_concat _
  · intro stream h
    obtain ⟨items, raised⟩ := stream
    cases raised with
    | some e =>
      rw [lgHandleStreaming_some]
      constructor
      · intro ev hev
        rw [List.dropLast_concat] at hev
        exact mem_map_contentEvent_lg hev
      · right
        exact ⟨e, List.getLast?_concat _⟩
    | none =>
      rw [lgHandleStreaming_none]
      constructor
      · intro ev hev
        rw [List.dropLast_concat] at hev
        exact mem_map_contentEvent_lg hev
      · left
        exact List.getLast?_concat _

/-- C2 counterexample.  The error event produced when the autogen stream
raises has the keys `error` and `type`, not the keys `chunk` and `type`
the claim asserts for every event. -/
theorem c2_counterexample :
    (agHandleStreaming true (AgStream.mk [] (some "boom")) []).1 = [errorEvent "boom"]
    ∧ eventKeys (errorEvent "boom") ≠ ["chunk", "type"] := by
  constructor
  · rw [agHandleStreaming_true_some]
    rfl
  · decide

/-- C8 (confirmed).  When the model stream raises during a streaming turn,
each handler has yielded exactly one terminal event, an `error` event
carrying the exception message, as the last event, and no assistant
message is committed: the shared history holds only the user message each
entrypoint appended at turn start (plus whatever preceded the turn). -/
theorem c8_stream_failure (h : List Msg) (p e : String) (items : List AgStreamItem)
    (cb : Except PyExc (Option AgResponse))
    (litems : List LgStreamItem) (inv : Except PyExc (List LgGraphMsg)) :
    (agTurn true (AgRequest.mk (some p) true) (AgStream.mk items (some e)) cb h).1
        = h ++ [Msg.mk "user" p]
    ∧ (turnEvents (agTurn true (AgRequest.mk (some p) true)
        (AgStream.mk items (some e)) cb h).2).getLast? = some (errorEvent e)
    ∧ (turnEvents (agTurn true (AgRequest.mk (some p) true)
        (AgStream.mk items (some e)) cb h).2).countP isTerminalEvent = 1
    ∧ (lgTurn (LgRequest.mk (some p) true) (LgStream.mk litems (some e)) inv h).1
        = h ++ [Msg.mk "user" p]
    ∧ (turnEvents (lgTurn (LgRequest.mk (some p) true)
        (LgStream.mk litems (some e)) inv h).2).getLast? = some (errorEvent e)
    ∧ (turnEvents (lgTurn (LgRequest.mk (some p) true)
        (LgStream.mk litems (some e)) inv h).2).countP isTerminalEvent = 1 := by
  have hag : agTurn true (AgRequest.mk (some p) true) (AgStream.mk items (some e)) cb h
      = (h ++ [Msg.mk "user" p],
         TurnResult.streamed ((items.filterMap agKeep).map contentEvent ++ [errorEvent e])) := by
    simp [agTurn, agHandleStreaming_true_some]
  have hlg : lgTurn (LgRequest.mk (some p) true) (LgStream.mk litems (some e)) inv h
      = (h ++ [Msg.mk "user" p],
         TurnResult.streamed ((litems.filterMap lgKeep).map contentEvent ++ [errorEvent e])) := by
    simp [lgTurn, lgHandleStreaming_some]
  rw [hag, hlg]
  refine ⟨rfl, ?_, ?_, rfl, ?_, ?_⟩
  · exact List.getLast?_concat _
  · rw [turnEvents, List.countP_append, countP_terminal_map_contentEvent]
    rfl
  · exact List.getLast?_concat _
  · rw [turnEvents, List.countP_append, countP_terminal_map_contentEvent]
    rfl

/-- C10 (confirmed).  On the success path of the langgraph non-streaming
handler, the string placed in the `result` envelope and the content of the
assistant message appended to the shared history coincide and are
non-empty; it is the last graph message's content when that is present and
non-empty, and the fixed fallback text otherwise. -/
theorem c10_result_equals_commit (history : List Msg) (pre : List LgGraphMsg)
    (last_message : LgGraphMsg) :
    lgHandleNonStreaming (Except.ok (pre ++ [last_message])) history =
      (Envelope.result (lgExtractContent last_message),
       history ++ [Msg.mk "assistant" (lgExtractContent last_message)])
    ∧ lgExtractContent last_message ≠ "" := by
  constructor
  · simp [lgHandleNonStreaming, List.getLast?_concat]
  · unfold lgExtractContent
    cases hx : last_message.content with
    | none => decide
    | some c =>
      change (if c ≠ "" then c else lgDefaultResponse) ≠ ""
      by_cases hc : c ≠ ""
      · rw [if_pos hc]
        exact hc
      · rw [if_neg hc]
        decide

/-- C5 (confirmed).  A tool handler whose underlying sandbox call always
raises never lets the exception escape the orchestrator: in `chat_fn` and
in the websocket loop the per-call `try/except` converts it into the
non-empty string `Error reading file: <message>`, that string becomes the
appended `tool` message content, and the turn still completes normally
with the follow-up call's answer. -/
theorem c5_tool_error_isolation (m path id ans u : String) (msgs : List CMsg) :
    chat_fn (some (failingSBox m))
        (oneToolClient (GToolCall.mk id "read_file" (GArgs.mk path "" [] "")) ans) u msgs
      = (msgs ++ [CMsg.mk "user" (some u) none [],
          CMsg.mk "assistant" none none [GToolCall.mk id "read_file" (GArgs.mk path "" [] "")],
          CMsg.mk "tool" (some ("Error reading file: " ++ m)) (some id) [],
          CMsg.mk "assistant" (some ans) none []], some ans)
    ∧ wsTurn (failingSBox m)
        (oneToolClient (GToolCall.mk id "read_file" (GArgs.mk path "" [] "")) ans) u msgs
      = (msgs ++ [CMsg.mk "user" (some u) none [],
          CMsg.mk "assistant" none none [GToolCall.mk id "read_file" (GArgs.mk path "" [] "")],
          CMsg.mk "tool" (some ("Error reading file: " ++ m)) (some id) [],
          CMsg.mk "assistant" (some ans) none []],
         WsReply.withTools (some ans) ["Error reading file: " ++ m])
    ∧ ("Error reading file: " ++ m) ≠ "" := by
  refine ⟨?_, ?_, ?_⟩
  · simp [chat_fn, oneToolClient, gradioDispatch, read_file, failingSBox]
  · simp [wsTurn, oneToolClient, wsDispatch, ws_read_file, failingSBox]
  · intro hcontra
    have hlen := congrArg String.length hcontra
    rw [String.length_append] at hlen
    have h20 : ("Error reading file: ").length = 20 := rfl
    have h0 : ("" : String).length = 0 := rfl
    rw [h20, h0] at hlen
    exact absurd hlen (by omega)

theorem agTurn_success_appends (t : AgTurnSpec) (h : List Msg)
    (hs : agSpecSuccessful t) :
    (agTurn true t.request t.streamBehavior t.completeBehavior h).1
      = h ++ agTurnAppends t := by
  obtain ⟨⟨pr, streaming⟩, sb, cb⟩ := t
  cases streaming with
  | true =>
    have hraised : sb.raised = none := hs.1 rfl
    obtain ⟨items, raised⟩ := sb
    simp only at hraised
    subst hraised
    simp only [agTurn, agTurnAppends, if_true, agHandleStreaming_true_none]
    by_cases hacc : String.join (items.filterMap agKeep) ≠ ""
    · simp [hacc]
    · simp [hacc]
  | false =>
    obtain ⟨r, hr⟩ := hs.2 rfl
    simp only at hr
    subst hr
    simp [agTurn, agTurnAppends, agHandleNonStreaming]

/-- C1 (corrected, amended).  With the framework available, every
successful autogen turn appends exactly one user message (with the
request's prompt) at turn start and, at turn end, exactly one assistant
message for a non-streaming turn, and one assistant message exactly when
the accumulated content is non-empty for a streaming turn (these apps
append no intermediate tool-round messages to the shared history); hence
over any sequence of successful turns the final history is the initial
history followed by each turn's appends in chronological order, and the
message count is the sum of the per-turn gains.  The langgraph entrypoint
behaves the same way on its success paths. -/
theorem c1_amended (ts : List AgTurnSpec) (h : List Msg)
    (H : ∀ t ∈ ts, agSpecSuccessful t) :
    (agRunTurns true ts h).1 = h ++ ts.flatMap agTurnAppends
    ∧ (agRunTurns true ts h).1.length = h.length + (ts.map agTurnGain).sum
    ∧ (∀ (p : String) (pre : List LgGraphMsg) (lastm : LgGraphMsg)
        (sb : LgStream) (h2 : List Msg),
        lgTurn (LgRequest.mk (some p) false) sb (Except.ok (pre ++ [lastm])) h2 =
          (h2 ++ [Msg.mk "user" p, Msg.mk "assistant" (lgExtractContent lastm)],
           TurnResult.envelope (Envelope.result (lgExtractContent lastm))))
    ∧ (∀ (p : String) (litems : List LgStreamItem)
        (inv2 : Except PyExc (List LgGraphMsg)) (h2 : List Msg),
        (lgTurn (LgRequest.mk (some p) true) (LgStream.mk litems none) inv2 h2).1 =
          h2 ++ Msg.mk "user" p ::
            (if String.join (litems.filterMap lgKeep) ≠ "" then
              [Msg.mk "assistant" (String.join (litems.filterMap lgKeep))]
             else [])) := by
  have hmain : ∀ (ts : List AgTurnSpec) (h : List Msg),
      (∀ t ∈ ts, agSpecSuccessful t) →
      (agRunTurns true ts h).1 = h ++ ts.flatMap agTurnAppends := by
    intro ts
    induction ts with
    | nil => intro h _; simp [agRunTurns]
    | cons t rest ih =>
      intro h H2
      have ht := agTurn_success_appends t h (H2 t (List.mem_cons_self t rest))
      have hrest := ih (h ++ agTurnAppends t)
        (fun u hu => H2 u (List.mem_cons_of_mem t hu))
      simp only [agRunTurns]
      rw [ht, hrest, List.flatMap_cons, List.append_assoc]
  refine ⟨hmain ts h H, ?_, ?_, ?_⟩
  · rw [hmain ts h H, List.length_append, List.length_flatMap]
    rfl
  · intro p pre lastm sb h2
    simp [lgTurn, lgHandleNonStreaming, List.getLast?_concat]
  · intro p litems inv2 h2
    simp only [lgTurn, if_true, lgHandleStreaming_none]
    by_cases hacc : String.join (litems.filterMap lgKeep) ≠ ""
    · simp [hacc]
    · simp [hacc]

/-- C1 counterexample.  A streaming turn whose model stream yields no
content chunks is successful (it ends with the `end` event, not an error)
yet appends only the user message: the history gains one message, not the
two the claim requires of every successful turn. -/
theorem c1_counterexample :
    turnSuccessful (agTurn true (AgRequest.mk (some "hi") true) (AgStream.mk [] none)
      (Except.ok none) []).2 = true
    ∧ (agTurn true (AgRequest.mk (some "hi") true) (AgStream.mk [] none)
      (Except.ok none) []).1 = [Msg.mk "user" "hi"] := by
  constructor
  · rfl
  · rfl

/-- C1 witness: the amended theorem applied to two concrete successful
turns, whose final history evaluates to the expected four messages. -/
theorem c1_witness :
    (agRunTurns true agDemoTurns []).1 =
      [Msg.mk "user" "q1", Msg.mk "assistant" "a1",
       Msg.mk "user" "q2", Msg.mk "assistant" "Hello"] := by
  have H : ∀ t ∈ agDemoTurns, agSpecSuccessful t := by
    intro t ht
    simp only [agDemoTurns, List.mem_cons, List.not_mem_nil, or_false] at ht
    rcases ht with rfl | rfl
    · constructor
      · intro hh
        exact absurd hh (by decide)
      · intro hx
        exact ⟨_, rfl⟩
    · constructor
      · intro hx
        rfl
      · intro hh
        exact absurd hh (by decide)
  exact (c1_amended agDemoTurns [] H).1.trans (by decide)

theorem countP_tool_append_tools (pre : List CMsg) (calls : List GToolCall)
    (g : GToolCall → Option String) :
    (pre ++ calls.map (fun tc => CMsg.mk "tool" (g tc) (some tc.id) [])).countP
        (fun m => m.role == "tool")
      = pre.countP (fun m => m.role == "tool") + calls.length := by
  rw [List.countP_append, List.countP_map]
  have hfun : ((fun (m : CMsg) => m.role == "tool")
      ∘ (fun tc => CMsg.mk "tool" (g tc) (some tc.id) [])) = fun _ => true := by
    funext tc; rfl
  rw [hfun]
  simp [List.countP_true]

theorem countP_tool_append_nontool (pre : List CMsg) (r : String) (c : Option String)
    (tid : Option String) (tcs : List GToolCall) (hr : (r == "tool") = false) :
    (pre ++ [CMsg.mk r c tid tcs]).countP (fun m => m.role == "tool")
      = pre.countP (fun m => m.role == "tool") := by
  rw [List.countP_append]
  simp [List.countP_cons, hr]

/-- C9 (confirmed).  In `chat_fn` and in the websocket loop each user turn
performs at most one tool round: when the first (tools-bearing) model call
requests tools, every requested tool is executed in order and appended as
one `tool` message each, exactly one follow-up call is then made without
tool schemas, and the follow-up's content is returned unconditionally —
even when the follow-up response itself carries tool calls, nothing after
the follow-up assistant message is appended or executed; when the first
call requests no tools its content is returned directly. -/
theorem c9_single_tool_round (sandbox : Option SBox) (sbx2 : SBox)
    (client : List CMsg → Bool → CResp) (u : String) (msgs : List CMsg)
    (h1 : (client (msgs ++ [CMsg.mk "user" (some u) none []]) true).tool_calls ≠ []) :
    chat_fn sandbox client u msgs =
      (msgs ++ [CMsg.mk "user" (some u) none []]
        ++ [CMsg.mk "assistant"
              (client (msgs ++ [CMsg.mk "user" (some u) none []]) true).content none
              (client (msgs ++ [CMsg.mk "user" (some u) none []]) true).tool_calls]
        ++ (client (msgs ++ [CMsg.mk "user" (some u) none []]) true).tool_calls.map
            (fun tc => CMsg.mk "tool" (some (gradioDispatch sandbox tc)) (some tc.id) [])
        ++ [CMsg.mk "assistant"
              (client (msgs ++ [CMsg.mk "user" (some u) none []]
                ++ [CMsg.mk "assistant"
                      (client (msgs ++ [CMsg.mk "user" (some u) none []]) true).content none
                      (client (msgs ++ [CMsg.mk "user" (some u) none []]) true).tool_calls]
                ++ (client (msgs ++ [CMsg.mk "user" (some u) none []]) true).tool_calls.map
                    (fun tc => CMsg.mk "tool" (some (gradioDispatch sandbox tc)) (some tc.id) []))
                false).content none
              (client (msgs ++ [CMsg.mk "user" (some u) none []]
                ++ [CMsg.mk "assistant"
                      (client (msgs ++ [CMsg.mk "user" (some u) none []]) true).content none
                      (client (msgs ++ [CMsg.mk "user" (some u) none []]) true).tool_calls]
                ++ (client (msgs ++ [CMsg.mk "user" (some u) none []]) true).tool_calls.map
                    (fun tc => CMsg.mk "tool" (some (gradioDispatch sandbox tc)) (some tc.id) []))
                false).tool_calls],
       (client (msgs ++ [CMsg.mk "user" (some u) none []]
         ++ [CMsg.mk "assistant"
               (client (msgs ++ [CMsg.mk "user" (some u) none []]) true).content none
               (client (msgs ++ [CMsg.mk "user" (some u) none []]) true).tool_calls]
         ++ (client (msgs ++ [CMsg.mk "user" (some u) none []]) true).tool_calls.map
             (fun tc => CMsg.mk "tool" (some (gradioDispatch sandbox tc)) (some tc.id) []))
         false).content)
    ∧ (chat_fn sandbox client u msgs).1.countP (fun m => m.role == "tool")
        = msgs.countP (fun m => m.role == "tool")
          + (client (msgs ++ [CMsg.mk "user" (some u) none []]) true).tool_calls.length
    ∧ wsTurn sbx2 client u msgs =
      (msgs ++ [CMsg.mk "user" (some u) none []]
        ++ [CMsg.mk "assistant"
              (client (msgs ++ [CMsg.mk "user" (some u) none []]) true).content none
              (client (msgs ++ [CMsg.mk "user" (some u) none []]) true).tool_calls]
        ++ (client (msgs ++ [CMsg.mk "user" (some u) none []]) true).tool_calls.map
            (fun tc => CMsg.mk "tool" (some (wsDispatch sbx2 tc)) (some tc.id) [])
        ++ [CMsg.mk "assistant"
              (client (msgs ++ [CMsg.mk "user" (some u) none []]
                ++ [CMsg.mk "assistant"
                      (client (msgs ++ [CMsg.mk "user" (some u) none []]) true).content none
                      (client (msgs ++ [CMsg.mk "user" (some u) none []]) true).tool_calls]
                ++ (client (msgs ++ [CMsg.mk "user" (some u) none []]) true).tool_calls.map
                    (fun tc => CMsg.mk "tool" (some (wsDispatch sbx2 tc)) (some tc.id) []))
                false).content none
              (client (msgs ++ [CMsg.mk "user" (some u) none []]
                ++ [CMsg.mk "assistant"
                      (client (msgs ++ [CMsg.mk "user" (some u) none []]) true).content none
                      (client (msgs ++ [CMsg.mk "user" (some u) none []]) true).tool_calls]
                ++ (client (msgs ++ [CMsg.mk "user" (some u) none []]) true).tool_calls.map
                    (fun tc => CMsg.mk "tool" (some (wsDispatch sbx2 tc)) (some tc.id) []))
                false).tool_calls],
       WsReply.withTools
         (client (msgs ++ [CMsg.mk "user" (some u) none []]
           ++ [CMsg.mk "assistant"
                 (client (msgs ++ [CMsg.mk "user" (some u) none []]) true).content none
                 (client (msgs ++ [CMsg.mk "user" (some u) none []]) true).tool_calls]
           ++ (client (msgs ++ [CMsg.mk "user" (some u) none []]) true).tool_calls.map
               (fun tc => CMsg.mk "tool" (some (wsDispatch sbx2 tc)) (some tc.id) []))
           false).content
         ((client (msgs ++ [CMsg.mk "user" (some u) none []]) true).tool_calls.map
           (wsDispatch sbx2)))
    ∧ (∀ ans, chat_fn sandbox (noToolClient ans) u msgs =
        (msgs ++ [CMsg.mk "user" (some u) none [],
          CMsg.mk "assistant" (some ans) none []], some ans))
    ∧ (∀ ans, wsTurn sbx2 (noToolClient ans) u msgs =
        (msgs ++ [CMsg.mk "user" (some u) none [],
          CMsg.mk "assistant" (some ans) none []], WsReply.simple (some ans))) := by
  have hchat : chat_fn sandbox client u msgs =
      (msgs ++ [CMsg.mk "user" (some u) none []]
        ++ [CMsg.mk "assistant"
              (client (msgs ++ [CMsg.mk "user" (some u) none []]) true).content none
              (client (msgs ++ [CMsg.mk "user" (some u) none []]) true).tool_calls]
        ++ (client (msgs ++ [CMsg.mk "user" (some u) none []]) true).tool_calls.map
            (fun tc => CMsg.mk "tool" (some (gradioDispatch sandbox tc)) (some tc.id) [])
        ++ [CMsg.mk "assistant"
              (client (msgs ++ [CMsg.mk "user" (some u) none []]
                ++ [CMsg.mk "assistant"
                      (client (msgs ++ [CMsg.mk "user" (some u) none []]) true).content none
                      (client (msgs ++ [CMsg.mk "user" (some u) none []]) true).tool_calls]
                ++ (client (msgs ++ [CMsg.mk "user" (some u) none []]) true).tool_calls.map
                    (fun tc => CMsg.mk "tool" (some (gradioDispatch sandbox tc)) (some tc.id) []))
                false).content none
              (client (msgs ++ [CMsg.mk "user" (some u) none []]
                ++ [CMsg.mk "assistant"
                      (client (msgs ++ [CMsg.mk "user" (some u) none []]) true).content none
                      (client (msgs ++ [CMsg.mk "user" (some u) none []]) true).tool_calls]
                ++ (client (msgs ++ [CMsg.mk "user" (some u) none []]) true).tool_calls.map
                    (fun tc => CMsg.mk "tool" (some (gradioDispatch sandbox tc)) (some tc.id) []))
                false).tool_calls],
       (client (msgs ++ [CMsg.mk "user" (some u) none []]
         ++ [CMsg.mk "assistant"
               (client (msgs ++ [CMsg.mk "user" (some u) none []]) true).content none
               (client (msgs ++ [CMsg.mk "user" (some u) none []]) true).tool_calls]
         ++ (client (msgs ++ [CMsg.mk "user" (some u) none []]) true).tool_calls.map
             (fun tc => CMsg.mk "tool" (some (gradioDispatch sandbox tc)) (some tc.id) []))
         false).content) := by
    simp only [chat_fn]
    rw [if_pos h1]
  refine ⟨hchat, ?_, ?_, ?_, ?_⟩
  · rw [hchat]
    rw [countP_tool_append_nontool _ "assistant" _ _ _ (by decide),
      countP_tool_append_tools,
      countP_tool_append_nontool _ "assistant" _ _ _ (by decide),
      countP_tool_append_nontool _ "user" _ _ _ (by decide)]
  · simp only [wsTurn]
    rw [if_pos h1]
  · intro ans
    simp [chat_fn, noToolClient]
  · intro ans
    simp [wsTurn, noToolClient]

theorem countRole_append (r : String) (a b : List EdaMsg) :
    countRole r (a ++ b) = countRole r a + countRole r b := by
  simp [countRole, List.countP_append]

theorem countRole_singleton (r : String) (m : EdaMsg) :
    countRole r [m] = if m.role == r then 1 else 0 := by
  simp [countRole, List.countP_cons]

theorem edaExecToolCall_ok_role {sbx : SandboxOps} {tc : EdaToolCall} {m : EdaMsg}
    (h : edaExecToolCall sbx tc = Except.ok m) : m.role = "tool" := by
  unfold edaExecToolCall at h
  split_ifs at h
  · cases hx : run_python_code sbx tc.args.python_code with
    | error e => rw [hx] at h; cases h
    | ok cr => rw [hx] at h; cases h; rfl
  · cases h; rfl
  · cases h; rfl
  · cases h; rfl

theorem edaExecToolCalls_all_ok (sbx : SandboxOps) :
    ∀ (calls : List EdaToolCall) (msgs : List EdaMsg),
      (∀ tc ∈ calls, ∃ m, edaExecToolCall sbx tc = Except.ok m) →
      (edaExecToolCalls sbx calls msgs).2 = none
      ∧ countRole "assistant" (edaExecToolCalls sbx calls msgs).1
          = countRole "assistant" msgs
      ∧ countRole "user" (edaExecToolCalls sbx calls msgs).1 = countRole "user" msgs
      ∧ countRole "tool" (edaExecToolCalls sbx calls msgs).1
          = countRole "tool" msgs + calls.length := by
  intro calls
  induction calls with
  | nil =>
    intro msgs _
    exact ⟨rfl, rfl, rfl, rfl⟩
  | cons tc rest ih =>
    intro msgs H
    obtain ⟨m, hm⟩ := H tc (List.mem_cons_self tc rest)
    have hrest := ih (msgs ++ [m]) (fun u hu => H u (List.mem_cons_of_mem tc hu))
    have hrole := edaExecToolCall_ok_role hm
    have hassist : countRole "assistant" (msgs ++ [m]) = countRole "assistant" msgs := by
      rw [countRole_append, countRole_singleton, hrole]
      rfl
    have huser : countRole "user" (msgs ++ [m]) = countRole "user" msgs := by
      rw [countRole_append, countRole_singleton, hrole]
      rfl
    have htool : countRole "tool" (msgs ++ [m]) = countRole "tool" msgs + 1 := by
      rw [countRole_append, countRole_singleton, hrole]
      rfl
    simp only [edaExecToolCalls, hm]
    refine ⟨hrest.1, ?_, ?_, ?_⟩
    · rw [hrest.2.1, hassist]
    · rw [hrest.2.2.1, huser]
    · rw [hrest.2.2.2, htool, List.length_cons]
      omega

theorem edaLoop_round_limit (sbx : SandboxOps) (model : List EdaMsg → EdaResp)
    (limit : Nat)
    (H : ∀ ms, (model ms).tool_calls ≠ []
         ∧ ∀ tc ∈ (model ms).tool_calls, ∃ m, edaExecToolCall sbx tc = Except.ok m) :
    ∀ (fuel : Nat) (msgs : List EdaMsg),
      (edaLoop sbx model limit fuel msgs).2 = some (edaRoundLimitMsg limit)
      ∧ countRole "assistant" (edaLoop sbx model limit fuel msgs).1
          = countRole "assistant" msgs + fuel
      ∧ countRole "user" (edaLoop sbx model limit fuel msgs).1 = countRole "user" msgs
      ∧ countRole "tool" (edaLoop sbx model limit fuel msgs).1
          ≥ countRole "tool" msgs + fuel := by
  intro fuel
  induction fuel with
  | zero =>
    intro msgs
    exact ⟨rfl, rfl, rfl, Nat.le_refl _⟩
  | succ n ih =>
    intro msgs
    have h1 := (H msgs).1
    have hlen : 1 ≤ (model msgs).tool_calls.length :=
      List.length_pos.mpr h1
    have hexec := edaExecToolCalls_all_ok sbx (model msgs).tool_calls
      (msgs ++ [EdaMsg.mk "assistant" (EdaContent.str (model msgs).content)
        none none (model msgs).tool_calls]) (H msgs).2
    have hassist : countRole "assistant" (msgs ++ [EdaMsg.mk "assistant"
        (EdaContent.str (model msgs).content) none none (model msgs).tool_calls])
        = countRole "assistant" msgs + 1 := by
      rw [countRole_append, countRole_singleton]
      rfl
    have huser : countRole "user" (msgs ++ [EdaMsg.mk "assistant"
        (EdaContent.str (model msgs).content) none none (model msgs).tool_calls])
        = countRole "user" msgs := by
      rw [countRole_append, countRole_singleton]
      rfl
    have htool : countRole "tool" (msgs ++ [EdaMsg.mk "assistant"
        (EdaContent.str (model msgs).content) none none (model msgs).tool_calls])
        = countRole "tool" msgs := by
      rw [countRole_append, countRole_singleton]
      rfl
    have hrec := ih (edaExecToolCalls sbx (model msgs).tool_calls
      (msgs ++ [EdaMsg.mk "assistant" (EdaContent.str (model msgs).content)
        none none (model msgs).tool_calls])).1
    have hstep : edaLoop sbx model limit (n + 1) msgs
        = edaLoop sbx model limit n (edaExecToolCalls sbx (model msgs).tool_calls
            (msgs ++ [EdaMsg.mk "assistant" (EdaContent.str (model msgs).content)
              none none (model msgs).tool_calls])).1 := by
      simp only [edaLoop]
      rw [if_pos h1, hexec.1]
    rw [hstep]
    refine ⟨hrec.1, ?_, ?_, ?_⟩
    · rw [hrec.2.1, hexec.2.1, hassist]
      omega
    · rw [hrec.2.2.1, hexec.2.2.1, huser]
    · have := hrec.2.2.2
      rw [hexec.2.2.2, htool] at this
      omega

/-- C4 (confirmed).  Against a model that requests (executable, known)
tool calls on every round, a turn of `eda_chat` terminates: it performs
exactly `max_consecutive_function_calls_allowed` rounds — each appending
one assistant tool-call message and at least one tool message — and then
fails with the round-limit exception
`Consecutive tool calls from the Agent must not exceed <limit>.` instead
of looping forever. -/
theorem c4_round_limit (sbx : SandboxOps) (model : List EdaMsg → EdaResp)
    (limit : Nat) (user_input : String) (msgs : List EdaMsg)
    (H : ∀ ms, (model ms).tool_calls ≠ []
         ∧ ∀ tc ∈ (model ms).tool_calls, ∃ m, edaExecToolCall sbx tc = Except.ok m) :
    (edaTurn sbx model limit user_input msgs).2 = some (edaRoundLimitMsg limit)
    ∧ countRole "assistant" (edaTurn sbx model limit user_input msgs).1
        = countRole "assistant" msgs + limit
    ∧ countRole "user" (edaTurn sbx model limit user_input msgs).1
        = countRole "user" msgs + 1
    ∧ countRole "tool" (edaTurn sbx model limit user_input msgs).1
        ≥ countRole "tool" msgs + limit := by
  have hloop := edaLoop_round_limit sbx model limit H limit
    (msgs ++ [EdaMsg.mk "user" (EdaContent.str user_input) none none []])
  have hassist : countRole "assistant"
      (msgs ++ [EdaMsg.mk "user" (EdaContent.str user_input) none none []])
      = countRole "assistant" msgs := by
    rw [countRole_append, countRole_singleton]
    rfl
  have huser : countRole "user"
      (msgs ++ [EdaMsg.mk "user" (EdaContent.str user_input) none none []])
      = countRole "user" msgs + 1 := by
    rw [countRole_append, countRole_singleton]
    rfl
  have htool : countRole "tool"
      (msgs ++ [EdaMsg.mk "user" (EdaContent.str user_input) none none []])
      = countRole "tool" msgs := by
    rw [countRole_append, countRole_singleton]
    rfl
  unfold edaTurn
  refine ⟨hloop.1, ?_, ?_, ?_⟩
  · rw [hloop.2.1, hassist]
  · rw [hloop.2.2.1, huser]
  · have := hloop.2.2.2
    rw [htool] at this
    exact this

/-- C4 witness: the round-limit theorem applied to a concrete sandbox stub
and a model stub that always requests `run_on_command_line`, with the
limit set to 2. -/
theorem c4_witness :
    (edaTurn sbxOkStub alwaysToolModel 2 "hi" []).2 = some (edaRoundLimitMsg 2)
    ∧ countRole "assistant" (edaTurn sbxOkStub alwaysToolModel 2 "hi" []).1
        = countRole "assistant" ([] : List EdaMsg) + 2
    ∧ countRole "user" (edaTurn sbxOkStub alwaysToolModel 2 "hi" []).1
        = countRole "user" ([] : List EdaMsg) + 1
    ∧ countRole "tool" (edaTurn sbxOkStub alwaysToolModel 2 "hi" []).1
        ≥ countRole "tool" ([] : List EdaMsg) + 2 := by
  refine c4_round_limit sbxOkStub alwaysToolModel 2 "hi" [] ?_
  intro ms
  constructor
  · simp [alwaysToolModel]
  · intro tc htc
    simp only [alwaysToolModel, List.mem_cons, List.not_mem_nil, or_false] at htc
    subst htc
    exact ⟨_, rfl⟩

/-- C6 (corrected, amended).  An unknown tool name yields an error-string
tool message and the round continues only in the `gradio_chat` and
`sandbox-code-assistant` orchestrators (`Unknown tool <name>` and
`Error: Unknown tool <name>` respectively, with `chat_fn` still completing
the turn with the follow-up answer); in `sandbox_eda`'s `eda_chat` an
unknown tool name instead raises `ValueError(Unknown Function Call:
<name>)`, aborting the round loop. -/
theorem c6_unknown_tool (sandbox : Option SBox) (sbx2 : SBox) (sbx3 : SandboxOps)
    (tc : GToolCall) (tc3 : EdaToolCall) (ans u : String) (msgs : List CMsg)
    (hg : tc.name ∉ (["read_file", "write_file", "write_files",
      "run_commands"] : List String))
    (he : tc3.name ∉ (["run_python_code", "run_on_command_line", "sync_with_user",
      "delete_from_user_sync_folder"] : List String)) :
    gradioDispatch sandbox tc = "Unknown tool " ++ tc.name
    ∧ wsDispatch sbx2 tc = "Error: Unknown tool " ++ tc.name
    ∧ edaExecToolCall sbx3 tc3 = Except.error ("Unknown Function Call: " ++ tc3.name)
    ∧ chat_fn sandbox (oneToolClient tc ans) u msgs =
        (msgs ++ [CMsg.mk "user" (some u) none [],
          CMsg.mk "assistant" none none [tc],
          CMsg.mk "tool" (some ("Unknown tool " ++ tc.name)) (some tc.id) [],
          CMsg.mk "assistant" (some ans) none []], some ans) := by
  simp only [List.mem_cons, List.not_mem_nil, or_false, not_or] at hg he
  obtain ⟨hg1, hg2, hg3, hg4⟩ := hg
  obtain ⟨he1, he2, he3, he4⟩ := he
  have hgd : gradioDispatch sandbox tc = "Unknown tool " ++ tc.name := by
    unfold gradioDispatch
    rw [if_neg hg1, if_neg hg2, if_neg hg3, if_neg hg4]
  refine ⟨hgd, ?_, ?_, ?_⟩
  · unfold wsDispatch
    rw [if_neg hg1, if_neg hg2, if_neg hg3, if_neg hg4]
  · unfold edaExecToolCall
    rw [if_neg he1, if_neg he2, if_neg he3, if_neg he4]
  · simp [chat_fn, oneToolClient, hgd]

/-- C6 counterexample.  At the concrete unknown tool name `does_not_exist`
the `eda_chat` orchestrator raises (the turn ends with the `ValueError`
message) and appends no `tool` message at all, contradicting the claim
that the orchestrator appends an error-string tool message and does not
raise. -/
theorem c6_counterexample :
    (edaTurn sbxOkStub unknownToolModel 30 "analyze" []).2
        = some "Unknown Function Call: does_not_exist"
    ∧ countRole "tool" (edaTurn sbxOkStub unknownToolModel 30 "analyze" []).1 = 0 := by
  constructor
  · rfl
  · rfl

/-- C6 witness: the amended theorem applied at the concrete unknown name
`does_not_exist`. -/
theorem c6_witness :
    gradioDispatch none (GToolCall.mk "call_9" "does_not_exist" (GArgs.mk "" "" [] ""))
        = "Unknown tool " ++ "does_not_exist"
    ∧ wsDispatch (failingSBox "x") (GToolCall.mk "call_9" "does_not_exist" (GArgs.mk "" "" [] ""))
        = "Error: Unknown tool " ++ "does_not_exist"
    ∧ edaExecToolCall sbxOkStub
        (EdaToolCall.mk "call_9" "does_not_exist" (EdaToolArgs.mk "" "" "" ""))
        = Except.error ("Unknown Function Call: " ++ "does_not_exist")
    ∧ chat_fn none (oneToolClient (GToolCall.mk "call_9" "does_not_exist" (GArgs.mk "" "" [] "")) "ok") "hi" [] =
        ([CMsg.mk "user" (some "hi") none [],
          CMsg.mk "assistant" none none
            [GToolCall.mk "call_9" "does_not_exist" (GArgs.mk "" "" [] "")],
          CMsg.mk "tool" (some ("Unknown tool " ++ "does_not_exist")) (some "call_9") [],
          CMsg.mk "assistant" (some "ok") none []], some "ok") := by
  have h := c6_unknown_tool none (failingSBox "x") sbxOkStub
    (GToolCall.mk "call_9" "does_not_exist" (GArgs.mk "" "" [] ""))
    (EdaToolCall.mk "call_9" "does_not_exist" (EdaToolArgs.mk "" "" "" ""))
    "ok" "hi" [] (by decide) (by decide)
  exact ⟨h.1, h.2.1, h.2.2.1, h.2.2.2.trans (by simp)⟩

/-- C7 (corrected, amended).  In the autogen and langgraph apps a
turn-level failure (a raising model invocation) is surfaced exactly once
as a structured `error`/`error_type` envelope, the history retains exactly
the messages appended before the failure, and the session stays usable for
the next turn; in `sandbox_eda`, however, the round-limit `Exception` is
not caught anywhere in `eda_chat`: it escapes the session loop, which ends
with the remaining user inputs unprocessed. -/
theorem c7_turn_failures (h : List Msg) (p1 p2 : String) (e : PyExc)
    (sb1 sb2 : AgStream) (r : Option AgResponse)
    (sbx : SandboxOps) (model : List EdaMsg → EdaResp) (limit : Nat)
    (input : String) (rest : List String) (msgs0 : List EdaMsg)
    (hq : pyStrip (pyLower input) ≠ "quit()")
    (H : ∀ ms, (model ms).tool_calls ≠ []
         ∧ ∀ tc ∈ (model ms).tool_calls, ∃ m, edaExecToolCall sbx tc = Except.ok m) :
    agTurn true (AgRequest.mk (some p1) false) sb1 (Except.error e) h
      = (h ++ [Msg.mk "user" p1],
         TurnResult.envelope (Envelope.error ("Agent execution failed: " ++ e.msg) e.tyName))
    ∧ agRunTurns true
        [AgTurnSpec.mk (AgRequest.mk (some p1) false) sb1 (Except.error e),
         AgTurnSpec.mk (AgRequest.mk (some p2) false) sb2 (Except.ok r)] h
      = (h ++ [Msg.mk "user" p1, Msg.mk "user" p2,
          Msg.mk "assistant" (agExtractResponse r)],
         [TurnResult.envelope (Envelope.error ("Agent execution failed: " ++ e.msg) e.tyName),
          TurnResult.envelope (Envelope.result (agExtractResponse r))])
    ∧ lgTurn (LgRequest.mk (some p1) false) (LgStream.mk [] none) (Except.error e) h
      = (h ++ [Msg.mk "user" p1],
         TurnResult.envelope (Envelope.error ("Graph invocation failed: " ++ e.msg) e.tyName))
    ∧ (edaSession sbx model limit (input :: rest) msgs0).2
        = some (edaRoundLimitMsg limit)
    ∧ countRole "user" (edaSession sbx model limit (input :: rest) msgs0).1
        = countRole "user" msgs0 + 1 := by
  have hloop := edaLoop_round_limit sbx model limit H limit
    (msgs0 ++ [EdaMsg.mk "user" (EdaContent.str input) none none []])
  have huser : countRole "user"
      (msgs0 ++ [EdaMsg.mk "user" (EdaContent.str input) none none []])
      = countRole "user" msgs0 + 1 := by
    rw [countRole_append, countRole_singleton]
    rfl
  have hsession : edaSession sbx model limit (input :: rest) msgs0
      = ((edaTurn sbx model limit input msgs0).1, some (edaRoundLimitMsg limit)) := by
    simp only [edaSession]
    rw [if_neg hq]
    unfold edaTurn
    rw [hloop.1]
  refine ⟨?_, ?_, ?_, ?_, ?_⟩
  · simp [agTurn, agHandleNonStreaming]
  · simp [agRunTurns, agTurn, agHandleNonStreaming]
  · simp [lgTurn, lgHandleNonStreaming]
  · rw [hsession]
  · rw [hsession]
    show countRole "user" (edaTurn sbx model limit input msgs0).1
      = countRole "user" msgs0 + 1
    unfold edaTurn
    rw [hloop.2.2.1, huser]

/-- C7 counterexample.  With a model stub that always requests tool calls
and a round limit of 2, the whole `eda_chat` session over two user inputs
ends carrying the round-limit exception after the first input: the second
input is never processed (only one user message was ever appended), so the
failure escaped the turn and the session did not remain usable. -/
theorem c7_counterexample :
    (edaSession sbxOkStub alwaysToolModel 2 ["first question", "second question"] []).2
      = some (edaRoundLimitMsg 2)
    ∧ countRole "user" (edaSession sbxOkStub alwaysToolModel 2
        ["first question", "second question"] []).1 = 1 := by
  constructor
  · rfl
  · rfl

/-- C7 witness: the amended theorem applied at concrete inputs. -/
theorem c7_witness :
    agTurn true (AgRequest.mk (some "q") false) (AgStream.mk [] none)
        (Except.error (PyExc.mk "boom" "RuntimeError")) []
      = ([Msg.mk "user" "q"],
         TurnResult.envelope (Envelope.error "Agent execution failed: boom" "RuntimeError"))
    ∧ (edaSession sbxOkStub alwaysToolModel 2 ["go", "more"] []).2
        = some (edaRoundLimitMsg 2) := by
  have h := c7_turn_failures [] "q" "p" (PyExc.mk "boom" "RuntimeError")
    (AgStream.mk [] none) (AgStream.mk [] none) none
    sbxOkStub alwaysToolModel 2 "go" ["more"] [] (by decide)
    (by
      intro ms
      constructor
      · simp [alwaysToolModel]
      · intro tc htc
        simp only [alwaysToolModel, List.mem_cons, List.not_mem_nil, or_false] at htc
        subst htc
        exact ⟨_, rfl⟩)
  exact ⟨h.1.trans (by decide), h.2.2.2.1⟩

/-- C2 witness: the amended theorem instantiated at a concrete one-chunk
autogen stream, whose last event is the `end` terminal. -/
theorem c2_witness :
    (agHandleStreaming true
        (AgStream.mk [AgStreamItem.mk none (some (PyVal.str "Hel"))] none) []).1.getLast?
      = some endEvent
    ∨ ∃ m, (agHandleStreaming true
        (AgStream.mk [AgStreamItem.mk none (some (PyVal.str "Hel"))] none) []).1.getLast?
      = some (errorEvent m) :=
  (c2_amended.2.2.2.1 true
    (AgStream.mk [AgStreamItem.mk none (some (PyVal.str "Hel"))] none) []).2

/-- C9 witness: the single-round theorem instantiated at a concrete
sandbox, client stub and empty starting history. -/
theorem c9_witness :
    (chat_fn none
        (oneToolClient (GToolCall.mk "call_1" "read_file" (GArgs.mk "/a" "" [] "")) "fin")
        "hi" []).1.countP (fun m => m.role == "tool")
      = ([] : List CMsg).countP (fun m => m.role == "tool")
        + (oneToolClient (GToolCall.mk "call_1" "read_file" (GArgs.mk "/a" "" [] "")) "fin"
            ([] ++ [CMsg.mk "user" (some "hi") none []]) true).tool_calls.length :=
  (c9_single_tool_round none (failingSBox "x")
    (oneToolClient (GToolCall.mk "call_1" "read_file" (GArgs.mk "/a" "" [] "")) "fin")
    "hi" [] (by decide)).2.1

end CollabHub
